import Mathlib

/-!
Verification of the windowed table-extraction and pagination algorithms of
the ggl_sheets_api repository.

The extractor is a shallow embedding of `get_worksheet`
(src/data/data_fetch.py): the remote fetch is abstracted away, so the
function takes the raw 2-D string grid (what `worksheet.get_all_values()`
returns) directly.  The pagination logic is a shallow embedding of the
paginated branch of `return_transactions` (src/main.py).
-/

set_option autoImplicit false

namespace GglSheets

/-- A raw grid: an ordered, possibly ragged, list of rows of string cells. -/
abbrev RawGrid := List (List String)

/-- The windowing parameters of `get_worksheet`.  All four are Python `int`
values (the API layer places no lower bound on them), so they are embedded
as `Int`. -/
structure WindowSpec where
  row_start : Int
  column_start : Int
  limit_columns : Int
  limit_rows : Int
deriving Repr, DecidableEq

/-- The normalized result of extraction: the pandas DataFrame built with
`pd.DataFrame(data_rows, columns=headers)`, reduced to its column names and
its rows of nullable string cells. -/
structure Table where
  columns : List String
  rows : List (List (Option String))
deriving Repr, DecidableEq

/-- `pd.DataFrame()`: the empty table with zero columns and zero rows. -/
def emptyTable : Table := ⟨[], []⟩

/-- Python list slicing `xs[:k]`: for `k ≥ 0` keep the first `k` elements,
for `k < 0` drop the last `-k` elements (clamped at the empty list). -/
def pyTake (k : Int) (xs : List String) : List String :=
  if 0 ≤ k then xs.take k.toNat
  else xs.take (xs.length - (-k).toNat)

/-- `row_idx = row_start - 1` after the clamp `if row_start < 1: row_start = 1`
(lines 117-124 of data_fetch.py). -/
def rowIdx (spec : WindowSpec) : Nat := (max spec.row_start 1 - 1).toNat

/-- `col_idx = column_start - 1` after the clamp
`if column_start < 1: column_start = 1` (lines 120-125 of data_fetch.py). -/
def colIdx (spec : WindowSpec) : Nat := (max spec.column_start 1 - 1).toNat

/-- Lines 132-136: `headers = all_values[row_idx][col_idx:]`, then
`if limit_columns != 0 and limit_columns < len(headers): headers = headers[:limit_columns]`. -/
def headersOf (grid : RawGrid) (spec : WindowSpec) : List String :=
  let headers0 := (grid.getD (rowIdx spec) []).drop (colIdx spec)
  if spec.limit_columns ≠ 0 ∧ spec.limit_columns < (headers0.length : Int) then
    pyTake spec.limit_columns headers0
  else headers0

/-- Lines 143-148: the end of the scanned data-row range,
`end = len(all_values)` capped to `min(start + limit_rows, len(all_values))`
when `limit_rows > 0`. -/
def dataEnd (grid : RawGrid) (spec : WindowSpec) : Nat :=
  if 0 < spec.limit_rows then
    min (rowIdx spec + 1 + spec.limit_rows.toNat) grid.length
  else grid.length

/-- The loop body of lines 150-169 for one data row: `None` when the row is
skipped (`col_idx >= len(data_row)`), otherwise the processed row — slice
from `col_idx`, truncate by `limit_columns` when nonzero and smaller, pad
with `""` up to the header length, and map `"" ↦ None`. -/
def processRow (col_idx : Nat) (limit_columns : Int) (headersLen : Nat)
    (data_row : List String) : Option (List (Option String)) :=
  if col_idx ≥ data_row.length then none
  else
    let row_data0 := data_row.drop col_idx
    let row_data1 :=
      if limit_columns ≠ 0 ∧ limit_columns < (row_data0.length : Int) then
        pyTake limit_columns row_data0
      else row_data0
    let row_data := row_data1 ++ List.replicate (headersLen - row_data1.length) ""
    some (row_data.map fun v => if v = "" then none else some v)

/-- The full `data_rows` list built by the loop of lines 150-169. -/
def dataRows (grid : RawGrid) (spec : WindowSpec) : List (List (Option String)) :=
  (List.range' (rowIdx spec + 1) (dataEnd grid spec - (rowIdx spec + 1))).filterMap
    fun i => processRow (colIdx spec) spec.limit_columns
      (headersOf grid spec).length (grid.getD i [])

/-- The body of the `try` block of `get_worksheet` (lines 100-176).  The two
early returns of an empty DataFrame (line 112: `not all_values or
row_start >= len(all_values)`, checked BEFORE the clamping of `row_start`;
line 128: `col_idx >= len(all_values[row_idx])`) are `.ok emptyTable`.
`pd.DataFrame(data_rows, columns=headers)` (line 172) raises when some row
is wider than `headers` (rows were padded, so never narrower); that raise is
the `.error` case. -/
def extractCore (grid : RawGrid) (spec : WindowSpec) : Except String Table :=
  if grid.isEmpty ∨ spec.row_start ≥ (grid.length : Int) then .ok emptyTable
  else if colIdx spec ≥ (grid.getD (rowIdx spec) []).length then .ok emptyTable
  else if (dataRows grid spec).any
      (fun r => (headersOf grid spec).length < r.length) then
    .error "columns passed, passed data had more columns"
  else .ok ⟨headersOf grid spec, dataRows grid spec⟩

/-- `get_worksheet` as seen by its caller: the `except Exception` handler of
lines 178-182 turns any raise inside the body into an empty DataFrame. -/
def extract (grid : RawGrid) (spec : WindowSpec) : Table :=
  match extractCore grid spec with
  | .ok t => t
  | .error _ => emptyTable

/-- The paginated response of `return_transactions` (src/main.py lines
135-156), with rows kept positional (the code re-keys them by column name
via `to_dict`, which loses no row content for distinct headers). -/
structure PagedResult where
  data : List (List (Option String))
  page : Nat
  page_size : Nat
  total_rows : Nat
  total_pages : Nat
  has_next : Bool
  has_previous : Bool
deriving Repr, DecidableEq

/-- The pagination branch of `return_transactions`: FastAPI validates
`page ≥ 1` and `1 ≤ page_size ≤ 1000` before the handler runs, so both are
embedded as `Nat`.  `total_pages = (total_rows + page_size - 1) // page_size`;
`df.iloc[start_idx:end_idx]` is drop-then-take with Python clamping. -/
def paginate (t : Table) (page page_size : Nat) : PagedResult :=
  let total_rows := t.rows.length
  let total_pages := (total_rows + page_size - 1) / page_size
  let skip_rows := (page - 1) * page_size
  let items := (t.rows.drop skip_rows).take page_size
  ⟨items, page, page_size, total_rows, total_pages,
    decide (page < total_pages), decide (1 < page)⟩

/-- The default window spec of the HTTP query parameters:
`row_start=1, column_start=1, limit_columns=0, limit_rows=0`. -/
def defaultSpec : WindowSpec := ⟨1, 1, 0, 0⟩

example : extract [["h1", "h2"]] defaultSpec = emptyTable := by decide

example : extract [["id", "name"], ["1", "Alice"], ["2", ""]] defaultSpec =
    ⟨["id", "name"], [[some "1", some "Alice"], [some "2", none]]⟩ := by decide

example : extract [["h"], ["a", "b"]] defaultSpec = emptyTable := by decide

example : extract [["h1", "h2"]] ⟨0, 1, 0, 0⟩ = ⟨["h1", "h2"], []⟩ := by decide

/-! ### Helper lemmas -/

theorem extract_of_ok {g : RawGrid} {s : WindowSpec} {t : Table}
    (h : extractCore g s = .ok t) : extract g s = t := by
  unfold extract; rw [h]

theorem extract_of_error {g : RawGrid} {s : WindowSpec} {e : String}
    (h : extractCore g s = .error e) : extract g s = emptyTable := by
  unfold extract; rw [h]

theorem extractCore_cases (grid : RawGrid) (spec : WindowSpec) :
    extractCore grid spec = .ok emptyTable ∨
    (∃ e, extractCore grid spec = .error e) ∨
    (extractCore grid spec = .ok ⟨headersOf grid spec, dataRows grid spec⟩ ∧
      (dataRows grid spec).any
        (fun r => decide ((headersOf grid spec).length < r.length)) = false) := by
  unfold extractCore
  split
  · exact Or.inl rfl
  split
  · exact Or.inl rfl
  split
  · exact Or.inr (Or.inl ⟨_, rfl⟩)
  · rename_i h
    exact Or.inr (Or.inr ⟨rfl, by simpa using h⟩)

theorem processRow_length {c : Nat} {lc : Int} {h : Nat} {r : List String}
    {out : List (Option String)} (hp : processRow c lc h r = some out) :
    h ≤ out.length := by
  unfold processRow at hp
  split at hp
  · exact absurd hp (by simp)
  · simp only [Option.some.injEq] at hp
    subst hp
    simp only [List.length_map, List.length_append, List.length_replicate]
    omega

theorem processRow_isSome (c : Nat) (lc : Int) (h : Nat) (r : List String) :
    (processRow c lc h r).isSome = decide (c < r.length) := by
  unfold processRow
  split
  · rename_i hge
    simp [Nat.not_lt.mpr hge]
  · rename_i hlt
    simp [Nat.lt_of_not_le (fun hle => hlt hle)]

theorem processRow_cells {c : Nat} {lc : Int} {h : Nat} {r : List String}
    {out : List (Option String)} (hp : processRow c lc h r = some out) :
    ∀ cell ∈ out, cell ≠ some "" := by
  unfold processRow at hp
  split at hp
  · exact absurd hp (by simp)
  · simp only [Option.some.injEq] at hp
    subst hp
    intro cell hcell
    rcases List.mem_map.mp hcell with ⟨v, _, rfl⟩
    split
    · simp
    · rename_i hv
      simpa using hv

theorem length_filterMap_countP {α β : Type} (f : α → Option β) (l : List α) :
    (l.filterMap f).length = l.countP fun a => (f a).isSome := by
  induction l with
  | nil => rfl
  | cons a l ih =>
    rw [List.filterMap_cons, List.countP_cons]
    cases hfa : f a <;> simp [hfa, ih]

/-! ### Claim theorems -/

/-- C4: for every grid and spec, every row of the Table returned by
`extract` has length exactly equal to the number of returned column
headers — never shorter, never longer.  (Rows shorter than the headers are
padded; a row longer than the headers makes the DataFrame constructor
raise, so the whole result degrades to the empty Table.) -/
theorem c4_rows_width_eq_columns (grid : RawGrid) (spec : WindowSpec)
    (row : List (Option String)) (hrow : row ∈ (extract grid spec).rows) :
    row.length = (extract grid spec).columns.length := by
  rcases extractCore_cases grid spec with h | ⟨e, h⟩ | ⟨h, hany⟩
  · rw [extract_of_ok h] at hrow
    simp [emptyTable] at hrow
  · rw [extract_of_error h] at hrow
    simp [emptyTable] at hrow
  · rw [extract_of_ok h] at hrow ⊢
    show row.length = (headersOf grid spec).length
    simp only [dataRows] at hrow
    rcases List.mem_filterMap.mp hrow with ⟨i, _, hi⟩
    have h1 := processRow_length hi
    have h2 := List.any_eq_false.mp hany row (by simpa [dataRows] using hrow)
    simp only [decide_eq_true_eq, Nat.not_lt] at h2
    omega

/-- Witness for C4 at a concrete input: the single data row of
`[["h1","h2"],["a"]]` is padded to the header width 2. -/
theorem c4_witness :
    [some "a", none] ∈ (extract [["h1", "h2"], ["a"]] defaultSpec).rows ∧
    ([some "a", none] : List (Option String)).length =
      (extract [["h1", "h2"], ["a"]] defaultSpec).columns.length :=
  ⟨by decide, c4_rows_width_eq_columns _ _ _ (by decide)⟩

/-- C5: for every grid and spec, no cell of any data row of the returned
Table is the empty string: empty-string source cells and padding cells both
come out as `none`. -/
theorem c5_no_empty_string_cells (grid : RawGrid) (spec : WindowSpec)
    (row : List (Option String)) (cell : Option String)
    (hrow : row ∈ (extract grid spec).rows) (hcell : cell ∈ row) :
    cell ≠ some "" := by
  rcases extractCore_cases grid spec with h | ⟨e, h⟩ | ⟨h, _⟩
  · rw [extract_of_ok h] at hrow
    simp [emptyTable] at hrow
  · rw [extract_of_error h] at hrow
    simp [emptyTable] at hrow
  · rw [extract_of_ok h] at hrow
    simp only [dataRows] at hrow
    rcases List.mem_filterMap.mp hrow with ⟨i, _, hi⟩
    exact processRow_cells hi cell hcell

/-- Witness for C5 at a concrete input: the empty-string cell of
`[["h"],[""]]` appears as `none`, which is not `some ""`. -/
theorem c5_witness :
    [none] ∈ (extract [["h"], [""]] defaultSpec).rows ∧
    (none : Option String) ∈ ([none] : List (Option String)) ∧
    (none : Option String) ≠ some "" :=
  ⟨by decide, by decide,
    c5_no_empty_string_cells [["h"], [""]] defaultSpec [none] none
      (by decide) (by decide)⟩

/-- C1 counterexample: on the one-row grid `[["h1","h2"]]` with the default
spec, `extract` does NOT return the table with columns `["h1","h2"]` and no
rows: line 112 tests `row_start >= len(all_values)` (1 ≥ 1), so the
header-only grid is treated as a structural failure. -/
theorem c1_counterexample :
    extract [["h1", "h2"]] defaultSpec ≠ ⟨["h1", "h2"], []⟩ := by
  decide

/-- C1 amended: on the one-row grid `[["h1","h2"]]` with the default spec,
`extract` returns the empty Table (zero columns, zero rows): a grid whose
only row is the header row trips the `row_start >= len(all_values)` bounds
check and IS treated as a structural failure. -/
theorem c1_amended_header_only_grid_is_empty :
    extract [["h1", "h2"]] defaultSpec = emptyTable := by
  decide

/-- C2 counterexample: for the one-row grid `[["h1","h2"]]` and
`row_start = 0`, the clamped start `max 0 1 = 1` equals the row count, so
the claim demands the empty Table — but `extract` returns a table with
columns `["h1","h2"]`, because line 112 checks the UNCLAMPED `row_start`
(0 ≥ 1 is false) and the clamp only happens afterwards. -/
theorem c2_counterexample :
    max (0 : Int) 1 ≥ (([["h1", "h2"]] : RawGrid).length : Int) ∧
    extract [["h1", "h2"]] ⟨0, 1, 0, 0⟩ ≠ emptyTable := by
  constructor
  · decide
  · decide

/-- C2 amended: the bounds check uses the given `row_start` BEFORE clamping:
whenever `row_start ≥` the grid row count, `extract` returns the empty
Table; but a `row_start` below 1 escapes that check and is clamped to 1
afterwards, so on the one-row grid it yields the header columns with an
empty row list rather than the empty Table. -/
theorem c2_amended_bounds_check_precedes_clamp :
    (∀ (grid : RawGrid) (spec : WindowSpec),
        spec.row_start ≥ (grid.length : Int) → extract grid spec = emptyTable) ∧
    extract [["h1", "h2"]] ⟨0, 1, 0, 0⟩ = ⟨["h1", "h2"], []⟩ := by
  constructor
  · intro grid spec h
    apply extract_of_ok
    unfold extractCore
    rw [if_pos (Or.inr h : grid.isEmpty = true ∨ spec.row_start ≥ (grid.length : Int))]
  · decide

/-- Witness for C2 amended at a concrete input: `row_start = 5` on a
one-row grid gives the empty Table. -/
theorem c2_witness : extract [["x"]] ⟨5, 1, 0, 0⟩ = emptyTable :=
  c2_amended_bounds_check_precedes_clamp.1 [["x"]] ⟨5, 1, 0, 0⟩ (by decide)

/-- C7: `extract` never propagates an error: the empty grid and every
structural failure — `row_start` (as given) at or past the row count, and
the clamped column start beyond the header-row width (line 128, the
Scenario C of the spec) — return the empty Table, and any raise inside the
body (the `.error` case of `extractCore`, i.e. the DataFrame constructor
rejecting an over-wide row) is caught by the handler of lines 178-182 and
also returns the empty Table.  `extract` is a total function, so no input
makes it raise. -/
theorem c7_never_raises_degrades_to_empty (grid : RawGrid) (spec : WindowSpec) :
    (grid = [] → extract grid spec = emptyTable) ∧
    (spec.row_start ≥ (grid.length : Int) → extract grid spec = emptyTable) ∧
    (colIdx spec ≥ (grid.getD (rowIdx spec) []).length →
      extract grid spec = emptyTable) ∧
    (∀ e, extractCore grid spec = Except.error e → extract grid spec = emptyTable) := by
  refine ⟨?_, ?_, ?_, ?_⟩
  · rintro rfl
    exact extract_of_ok rfl
  · intro h
    apply extract_of_ok
    unfold extractCore
    rw [if_pos (Or.inr h : grid.isEmpty = true ∨ spec.row_start ≥ (grid.length : Int))]
  · intro h
    apply extract_of_ok
    unfold extractCore
    by_cases h0 : grid.isEmpty = true ∨ spec.row_start ≥ (grid.length : Int)
    · rw [if_pos h0]
    · rw [if_neg h0, if_pos h]
  · intro e h
    exact extract_of_error h

/-- Witness for C7 at concrete inputs: the empty grid, a column start past
the header-row width (Scenario C), and a grid whose data row is wider than
its header row (the internal-error path). -/
theorem c7_witness :
    extract [] defaultSpec = emptyTable ∧
    extract [["a", "b"], ["x", "y"]] ⟨1, 5, 0, 0⟩ = emptyTable ∧
    extract [["h"], ["a", "b"]] defaultSpec = emptyTable :=
  ⟨(c7_never_raises_degrades_to_empty [] defaultSpec).1 rfl,
   (c7_never_raises_degrades_to_empty [["a", "b"], ["x", "y"]] ⟨1, 5, 0, 0⟩).2.2.1
     (by decide),
   (c7_never_raises_degrades_to_empty [["h"], ["a", "b"]] defaultSpec).2.2.2
     "columns passed, passed data had more columns" (by rfl)⟩

theorem take_getElem_of_lt_length {α : Type} {l : List α} {m i : Nat}
    (hi : i < (l.take m).length) : (l.take m)[i]? = l[i]? := by
  apply List.getElem?_take_of_lt
  simp only [List.length_take] at hi
  omega

theorem pyTake_getElem {k : Int} {xs : List String} {i : Nat}
    (hi : i < (pyTake k xs).length) : (pyTake k xs)[i]? = xs[i]? := by
  by_cases h : (0 : Int) ≤ k
  · simp only [pyTake, if_pos h] at hi ⊢
    exact take_getElem_of_lt_length hi
  · simp only [pyTake, if_neg h] at hi ⊢
    exact take_getElem_of_lt_length hi

theorem headersOf_getElem (grid : RawGrid) (spec : WindowSpec) (i : Nat)
    (hi : i < (headersOf grid spec).length) :
    (headersOf grid spec)[i]? = (grid.getD (rowIdx spec) [])[colIdx spec + i]? := by
  by_cases h : spec.limit_columns ≠ 0 ∧ spec.limit_columns <
      ((((grid.getD (rowIdx spec) []).drop (colIdx spec)).length : Int))
  · simp only [headersOf, if_pos h] at hi ⊢
    rw [pyTake_getElem hi, List.getElem?_drop]
  · simp only [headersOf, if_neg h] at hi ⊢
    rw [List.getElem?_drop]

/-- C10: null normalization applies only to data cells, never to column
headers: each returned column name is the verbatim header-row cell at its
position (in particular an empty-string header cell stays the empty-string
column name), as the concrete second conjunct exhibits. -/
theorem c10_headers_kept_verbatim :
    (∀ (grid : RawGrid) (spec : WindowSpec) (i : Nat),
        i < (extract grid spec).columns.length →
        (extract grid spec).columns[i]? =
          (grid.getD (rowIdx spec) [])[colIdx spec + i]?) ∧
    extract [["", "h2"], ["", "y"]] defaultSpec =
      ⟨["", "h2"], [[none, some "y"]]⟩ := by
  constructor
  · intro grid spec i hi
    rcases extractCore_cases grid spec with h | ⟨e, h⟩ | ⟨h, _⟩
    · rw [extract_of_ok h] at hi
      simp [emptyTable] at hi
    · rw [extract_of_error h] at hi
      simp [emptyTable] at hi
    · rw [extract_of_ok h] at hi ⊢
      exact headersOf_getElem grid spec i hi
  · decide

/-- Witness for C10 at a concrete input: the first returned column of
`[["", "h2"], ["", "y"]]` is the verbatim (empty-string) header cell. -/
theorem c10_witness :
    0 < (extract [["", "h2"], ["", "y"]] defaultSpec).columns.length ∧
    (extract [["", "h2"], ["", "y"]] defaultSpec).columns[0]? =
      (([["", "h2"], ["", "y"]] : RawGrid).getD (rowIdx defaultSpec) [])[colIdx defaultSpec + 0]? :=
  ⟨by decide,
    c10_headers_kept_verbatim.1 [["", "h2"], ["", "y"]] defaultSpec 0 (by decide)⟩

/-- C6: when `limit_rows > 0` (and extraction proceeds normally), the
number of emitted rows equals the number of sufficiently wide rows among
exactly the scanned indices `[r+1, min (r+1+limit_rows) rowCount)`: a row
skipped for not reaching the header column still consumes a slot of the
window, so `limit_rows` caps the scanned range, not the emitted count. -/
theorem c6_limit_rows_caps_scanned_range (grid : RawGrid) (spec : WindowSpec)
    (hne : grid ≠ [])
    (hrs : spec.row_start < (grid.length : Int))
    (hcol : colIdx spec < (grid.getD (rowIdx spec) []).length)
    (hlr : 0 < spec.limit_rows)
    (hwide : (dataRows grid spec).any
      (fun r => decide ((headersOf grid spec).length < r.length)) = false) :
    (extract grid spec).rows.length =
      (List.range' (rowIdx spec + 1)
        (min (rowIdx spec + 1 + spec.limit_rows.toNat) grid.length -
          (rowIdx spec + 1))).countP
        (fun i => decide (colIdx spec < (grid.getD i []).length)) := by
  have h1 : ¬(grid.isEmpty = true ∨ spec.row_start ≥ (grid.length : Int)) := by
    rintro (h | h)
    · exact hne (List.isEmpty_iff.mp h)
    · omega
  have h2 : ¬(colIdx spec ≥ (grid.getD (rowIdx spec) []).length) :=
    Nat.not_le.mpr hcol
  have hok : extractCore grid spec =
      .ok ⟨headersOf grid spec, dataRows grid spec⟩ := by
    unfold extractCore
    rw [if_neg h1, if_neg h2, if_neg (by rw [hwide]; simp)]
  rw [extract_of_ok hok]
  show (dataRows grid spec).length = _
  unfold dataRows
  rw [length_filterMap_countP]
  have hde : dataEnd grid spec =
      min (rowIdx spec + 1 + spec.limit_rows.toNat) grid.length := by
    unfold dataEnd
    rw [if_pos hlr]
  rw [hde]
  apply List.countP_congr
  intro a _
  rw [processRow_isSome]

/-- Witness for C6 at a concrete input: in `[["h"], [], ["a"], ["b"]]` with
`limit_rows = 2`, the scanned window is rows 1-2; the empty row 1 consumes
a slot, so only one row is emitted even though row 3 would also qualify. -/
theorem c6_witness :
    (extract [["h"], [], ["a"], ["b"]] ⟨1, 1, 0, 2⟩).rows.length = 1 := by
  have h := c6_limit_rows_caps_scanned_range [["h"], [], ["a"], ["b"]]
    ⟨1, 1, 0, 2⟩ (by decide) (by decide) (by decide) (by decide) (by decide)
  rw [h]
  decide

/-- The per-row transformation worded exactly as the specification states
it (spec.md §4.1 steps 6a-6d): a row reaching column `c` contributes its
cells from `c` onward, truncated to `limit_columns` entries when
`limit_columns > 0`, with empty strings as null and right-padded with nulls
to the header width `h`. -/
def specProcessedRow (c : Nat) (lc : Int) (h : Nat) (row : List String) :
    Option (List (Option String)) :=
  if c < row.length then
    some (((if 0 < lc then (row.drop c).take lc.toNat else row.drop c).map
        fun v => if v = "" then none else some v) ++
      List.replicate
        (h - (if 0 < lc then (row.drop c).take lc.toNat else row.drop c).length)
        none)
  else none

/-- The data rows as described by the specification: the spec-worded row
transformation applied across the scanned window. -/
def specDataRows (grid : RawGrid) (spec : WindowSpec) :
    List (List (Option String)) :=
  (List.range' (rowIdx spec + 1) (dataEnd grid spec - (rowIdx spec + 1))).filterMap
    fun i => specProcessedRow (colIdx spec) spec.limit_columns
      (headersOf grid spec).length (grid.getD i [])

theorem processRow_spec (c : Nat) (lc : Int) (h : Nat) (row : List String)
    (hlc : 0 ≤ lc) : processRow c lc h row = specProcessedRow c lc h row := by
  unfold processRow specProcessedRow
  by_cases hcr : c ≥ row.length
  · rw [if_pos hcr, if_neg (Nat.not_lt.mpr hcr)]
  · rw [if_neg hcr, if_pos (Nat.lt_of_not_le fun hle => hcr hle)]
    have hcells :
        (if lc ≠ 0 ∧ lc < (((row.drop c).length : Int)) then
          pyTake lc (row.drop c) else row.drop c)
        = (if 0 < lc then (row.drop c).take lc.toNat else row.drop c) := by
      rcases lt_or_eq_of_le hlc with hpos | hzero
      · rw [if_pos hpos]
        by_cases hlen : lc < (((row.drop c).length : Int))
        · rw [if_pos ⟨by omega, hlen⟩]
          unfold pyTake
          rw [if_pos hlc]
        · rw [if_neg (by tauto)]
          symm
          apply List.take_of_length_le
          omega
      · rw [if_neg (by omega), if_neg (by omega)]
    simp only [hcells, List.map_append, List.map_replicate]
    simp

/-- C3 counterexample: in `[["h"], ["a", "b"]]` with the default spec the
structural checks pass and the data row reaches the header column, yet it
contributes no output row: it is wider than the single-cell header slice,
so the DataFrame constructor raises and `extract` returns no rows. -/
theorem c3_counterexample :
    colIdx defaultSpec < (([["h"], ["a", "b"]] : RawGrid).getD 1 []).length ∧
    (extract [["h"], ["a", "b"]] defaultSpec).rows = [] := by
  constructor
  · decide
  · decide

/-- C3 amended: for a grid and spec (with `limit_columns ≥ 0`, as the
WindowSpec of the specification requires) passing the structural checks, IF no
processed row is wider than the header slice, then every data row in the
scanned range that reaches the header column contributes exactly one output
row — cells from the header column onward, truncated to `limit_columns`
when positive, null-normalized and padded — in original order; if some
processed row IS wider than the header slice, the DataFrame construction
fails and `extract` returns the empty Table instead. -/
theorem c3_amended_rows_follow_spec (grid : RawGrid) (spec : WindowSpec)
    (hne : grid ≠ [])
    (hrs : spec.row_start < (grid.length : Int))
    (hcol : colIdx spec < (grid.getD (rowIdx spec) []).length) :
    (0 ≤ spec.limit_columns →
      (dataRows grid spec).any
        (fun r => decide ((headersOf grid spec).length < r.length)) = false →
      (extract grid spec).rows = specDataRows grid spec) ∧
    ((dataRows grid spec).any
        (fun r => decide ((headersOf grid spec).length < r.length)) = true →
      extract grid spec = emptyTable) := by
  have h1 : ¬(grid.isEmpty = true ∨ spec.row_start ≥ (grid.length : Int)) := by
    rintro (h | h)
    · exact hne (List.isEmpty_iff.mp h)
    · omega
  have h2 : ¬(colIdx spec ≥ (grid.getD (rowIdx spec) []).length) :=
    Nat.not_le.mpr hcol
  constructor
  · intro hlc hwide
    have hok : extractCore grid spec =
        .ok ⟨headersOf grid spec, dataRows grid spec⟩ := by
      unfold extractCore
      rw [if_neg h1, if_neg h2, if_neg (by rw [hwide]; simp)]
    rw [extract_of_ok hok]
    show dataRows grid spec = specDataRows grid spec
    unfold dataRows specDataRows
    exact congrArg₂ List.filterMap
      (funext fun i => processRow_spec _ _ _ _ hlc) rfl
  · intro hwide
    have herr : extractCore grid spec =
        .error "columns passed, passed data had more columns" := by
      unfold extractCore
      rw [if_neg h1, if_neg h2, if_pos hwide]
    exact extract_of_error herr

/-- Witness for C3 at concrete inputs: `[["h1","h2"],["a","b","c"]]` with
`limit_columns = 2` truncates the wide row to the header width (first
conjunct, via the no-overwide branch); the same grid without a column limit
degrades to the empty Table (second conjunct, via the overwide branch). -/
theorem c3_witness :
    (extract [["h1", "h2"], ["a", "b", "c"]] ⟨1, 1, 2, 0⟩).rows =
      specDataRows [["h1", "h2"], ["a", "b", "c"]] ⟨1, 1, 2, 0⟩ ∧
    extract [["h1", "h2"], ["a", "b", "c"]] ⟨1, 1, 0, 0⟩ = emptyTable :=
  ⟨(c3_amended_rows_follow_spec [["h1", "h2"], ["a", "b", "c"]] ⟨1, 1, 2, 0⟩
      (by decide) (by decide) (by decide)).1 (by decide) (by decide),
   (c3_amended_rows_follow_spec [["h1", "h2"], ["a", "b", "c"]] ⟨1, 1, 0, 0⟩
      (by decide) (by decide) (by decide)).2 (by decide)⟩

theorem paginate_data (t : Table) (page ps : Nat) :
    (paginate t page ps).data = (t.rows.drop ((page - 1) * ps)).take ps := rfl

theorem paginate_total_pages (t : Table) (page ps : Nat) :
    (paginate t page ps).total_pages = (t.rows.length + ps - 1) / ps := rfl

theorem paginate_has_next (t : Table) (page ps : Nat) :
    (paginate t page ps).has_next =
      decide (page < (t.rows.length + ps - 1) / ps) := rfl

theorem paginate_has_previous (t : Table) (page ps : Nat) :
    (paginate t page ps).has_previous = decide (1 < page) := rfl

theorem le_ceil_mul (n ps : Nat) (hps : 0 < ps) :
    n ≤ ((n + ps - 1) / ps) * ps := by
  have h1 := Nat.div_add_mod (n + ps - 1) ps
  have h2 := Nat.mod_lt (n + ps - 1) hps
  obtain ⟨m, hm⟩ : ∃ m, ps * ((n + ps - 1) / ps) = m := ⟨_, rfl⟩
  rw [hm] at h1
  rw [Nat.mul_comm ((n + ps - 1) / ps) ps, hm]
  omega

theorem ceil_pred_mul_lt (n ps : Nat) (hps : 0 < ps) (hn : 0 < n) :
    ((n + ps - 1) / ps - 1) * ps < n := by
  have h1 := Nat.div_mul_le_self (n + ps - 1) ps
  rw [Nat.sub_mul, Nat.one_mul]
  obtain ⟨m, hm⟩ : ∃ m, (n + ps - 1) / ps * ps = m := ⟨_, rfl⟩
  rw [hm] at h1 ⊢
  omega

/-- C8: for a nonempty table and validated `page`/`page_size`, the
pagination formula holds: `total_pages` is the ceiling of
`total_rows / page_size` (characterized as the least multiple bound), the
items are the clamped slice `[(page-1)*page_size, (page-1)*page_size +
page_size)` of the rows, `has_next = page < total_pages`, and
`has_previous = page > 1`. -/
theorem c8_paginate_formula (t : Table) (page page_size : Nat)
    (hpage : 1 ≤ page) (hps : 1 ≤ page_size) (hps1000 : page_size ≤ 1000)
    (hn : 1 ≤ t.rows.length) :
    (t.rows.length ≤ (paginate t page page_size).total_pages * page_size ∧
      ((paginate t page page_size).total_pages - 1) * page_size <
        t.rows.length) ∧
    (∀ i : Nat, (paginate t page page_size).data[i]? =
      if i < page_size then t.rows[(page - 1) * page_size + i]? else none) ∧
    (paginate t page page_size).has_next =
      decide (page < (paginate t page page_size).total_pages) ∧
    (paginate t page page_size).has_previous = decide (1 < page) := by
  refine ⟨⟨?_, ?_⟩, ?_, ?_, ?_⟩
  · rw [paginate_total_pages]
    exact le_ceil_mul _ _ hps
  · rw [paginate_total_pages]
    exact ceil_pred_mul_lt _ _ hps hn
  · intro i
    rw [paginate_data]
    by_cases hi : i < page_size
    · rw [if_pos hi, List.getElem?_take_of_lt hi, List.getElem?_drop]
    · rw [if_neg hi, List.getElem?_take_eq_none (by omega)]
  · rw [paginate_has_next, paginate_total_pages]
  · rw [paginate_has_previous]

/-- Witness for C8 at a concrete input: a 25-row table with `page = 3`,
`page_size = 10` (the ceiling bound instance: `total_pages = 3`). -/
theorem c8_witness :
    (⟨["v"], List.replicate 25 [some "x"]⟩ : Table).rows.length ≤
      (paginate ⟨["v"], List.replicate 25 [some "x"]⟩ 3 10).total_pages * 10 ∧
    ((paginate ⟨["v"], List.replicate 25 [some "x"]⟩ 3 10).total_pages - 1) * 10 <
      (⟨["v"], List.replicate 25 [some "x"]⟩ : Table).rows.length :=
  (c8_paginate_formula ⟨["v"], List.replicate 25 [some "x"]⟩ 3 10
    (by decide) (by decide) (by decide) (by decide)).1

/-- C9: a page strictly beyond `total_pages` is not rejected: the item list
is empty, `has_next` is false, and `has_previous` is true whenever
`page > 1`. -/
theorem c9_page_beyond_total_pages (t : Table) (page page_size : Nat)
    (hps : 1 ≤ page_size) (hps1000 : page_size ≤ 1000)
    (hbeyond : (paginate t page page_size).total_pages < page) :
    (paginate t page page_size).data = [] ∧
    (paginate t page page_size).has_next = false ∧
    (1 < page → (paginate t page page_size).has_previous = true) := by
  rw [paginate_total_pages] at hbeyond
  refine ⟨?_, ?_, ?_⟩
  · rw [paginate_data]
    have hlen : t.rows.length ≤ (page - 1) * page_size := by
      calc t.rows.length
          ≤ ((t.rows.length + page_size - 1) / page_size) * page_size :=
            le_ceil_mul _ _ hps
        _ ≤ (page - 1) * page_size := Nat.mul_le_mul_right _ (by omega)
    rw [List.drop_eq_nil_of_le hlen, List.take_nil]
  · rw [paginate_has_next]
    exact decide_eq_false (by omega)
  · intro h
    rw [paginate_has_previous]
    exact decide_eq_true h

/-- Witness for C9 at the concrete input of Scenario E: `page = 99`,
`page_size = 10` on a 25-row table. -/
theorem c9_witness :
    (paginate ⟨["v"], List.replicate 25 [some "x"]⟩ 99 10).data = [] ∧
    (paginate ⟨["v"], List.replicate 25 [some "x"]⟩ 99 10).has_next = false ∧
    (paginate ⟨["v"], List.replicate 25 [some "x"]⟩ 99 10).has_previous = true := by
  have h := c9_page_beyond_total_pages ⟨["v"], List.replicate 25 [some "x"]⟩
    99 10 (by decide) (by decide) (by decide)
  exact ⟨h.1, h.2.1, h.2.2 (by decide)⟩

end GglSheets
